import Mathlib

/-!
Shallow embedding of the survivreloaded server core (game tick loop in
`src/game/game.ts` and loot interaction in `src/game/objects/loot.ts`),
together with theorems settling the frozen specification claims.

Conventions of the embedding:
* JS arrays of game objects are lists of numeric object ids (`List Nat`);
  pushes become appends, `removeFrom` (indexOf + splice) becomes
  `List.erase` (remove the first occurrence).
* Side effects on the physics world (`createBody`, `destroyBody`) and the
  network (`sendPacket`, `sendData`) are logged into explicit event lists.
* External read-only data tables (`Constants.bagSizes`, `Items`) are
  parameters of the functions that consult them.
-/

namespace SR

/-- JS `String.prototype.endsWith`, in a kernel-reducible form over the
character list underlying a Lean `String`. -/
def strEndsWith (s suf : String) : Bool :=
  suf.data.isSuffixOf s.data

/-- JS `String.prototype.startsWith`, in a kernel-reducible form over the
character list underlying a Lean `String`. -/
def strStartsWith (s pre : String) : Bool :=
  pre.data.isPrefixOf s.data

/-- JS `parseInt` applied to the last character of a type string
("Last digit of the ID is the item level" in `Loot.pickUpTieredItem`). -/
def lastCharDigit (s : String) : Nat :=
  (s.data.getLastD '0').toNat - 48

/-- `removeFrom` from utils (not under src/): `indexOf` + `splice(idx, 1)`,
i.e. removal of the first occurrence. -/
def removeFrom (l : List Nat) (x : Nat) : List Nat :=
  l.erase x

/-- Pickup result codes from `PickupMsgType` in pickupPacket.ts. -/
inductive PickupMsgType where
  | Success
  | Full
  | AlreadyEquipped
  | BetterItemEquipped
deriving DecidableEq, Repr

/-- The data carried by a `PickupPacket` (type string, count, result). -/
structure PickupPacket where
  typeString : String
  count : Nat
  result : PickupMsgType
deriving DecidableEq, Repr

/-- A weapon slot of `p.weapons` (`primaryGun` / `secondaryGun`). -/
structure GunSlot where
  typeString : String
  typeId : Nat
deriving DecidableEq, Repr

/-- The fields of a `Loot` object that the loot code reads or writes. -/
structure LootL where
  id : Nat
  typeString : String
  typeId : Nat
  count : Nat
  position : Int × Int
  oldPos : Int × Int
  layer : Nat
  interactable : Bool
deriving DecidableEq, Repr

/-- The fields of `Player` that `Loot.interact` reads or writes.
`sentPackets` logs the `PickupPacket`s sent to this player's connection. -/
structure PlayerP where
  id : Nat
  isMobile : Bool
  inventory : String → Nat
  backpackLevel : Nat
  chestLevel : Nat
  helmetLevel : Nat
  scopeTypeString : String
  primaryGun : GunSlot
  secondaryGun : GunSlot
  weaponsDirty : Bool
  inventoryDirty : Bool
  inventoryEmpty : Bool
  fullDirtyObjects : List Nat
  sentPackets : List PickupPacket

/-- Pointwise update of the player's inventory map. -/
def updateInv (inv : String → Nat) (k : String) (v : Nat) : String → Nat :=
  fun s => if s = k then v else inv s

/-- The parts of `Game` touched by loot interaction. `spawnedLoot` logs the
`Loot` objects constructed during the call; `destroyedBodies` logs ids of
objects whose physics body was destroyed via `world.destroyBody`. -/
structure GameG where
  objects : List Nat
  loot : List Nat
  spawnedLoot : List LootL
  deletedObjects : List Nat
  fullDirtyObjects : List Nat
  partialDirtyObjects : List Nat
  destroyedBodies : List Nat
  nextObjectId : Nat
deriving DecidableEq, Repr

/-- `p[type + "Level"]` for type in backpack/chest/helmet. -/
def getLevel (p : PlayerP) (ty : String) : Nat :=
  if ty = "backpack" then p.backpackLevel
  else if ty = "chest" then p.chestLevel
  else p.helmetLevel

/-- `p[type + "Level"] = v` for type in backpack/chest/helmet. -/
def setLevel (p : PlayerP) (ty : String) (v : Nat) : PlayerP :=
  if ty = "backpack" then { p with backpackLevel := v }
  else if ty = "chest" then { p with chestLevel := v }
  else { p with helmetLevel := v }

/-- `Loot.pickUpTieredItem(type, p)`.  The `Loot` constructor assigns the
next object id, creates a physics body and pushes the new loot onto
`game.loot`; `pickUpTieredItem` then pushes it onto `game.objects` and
`game.fullDirtyObjects`. -/
def pickUpTieredItem (ty : String) (g : GameG) (l : LootL) (p : PlayerP) :
    PickupMsgType × GameG × PlayerP :=
  let oldLevel := getLevel p ty
  let newLevel := lastCharDigit l.typeString
  if newLevel < oldLevel then (.BetterItemEquipped, g, p)
  else if newLevel = oldLevel then (.AlreadyEquipped, g, p)
  else
    let p1 := setLevel p ty newLevel
    if oldLevel ≠ 0 then
      let oldItem : LootL :=
        { id := g.nextObjectId
          typeString := ty ++ "0" ++ toString oldLevel
          typeId := 0
          count := 1
          position := l.position
          oldPos := l.position
          layer := l.layer
          interactable := true }
      let g1 : GameG :=
        { g with
          nextObjectId := g.nextObjectId + 1
          loot := g.loot ++ [oldItem.id]
          spawnedLoot := g.spawnedLoot ++ [oldItem]
          objects := g.objects ++ [oldItem.id]
          fullDirtyObjects := g.fullDirtyObjects ++ [oldItem.id] }
      (.Success, g1, p1)
    else (.Success, g, p1)

/-- Intermediate state after the dispatch part of `Loot.interact`
(the `result` / `deleteItem` / `playerDirty` locals plus the mutated
game, loot and player). -/
structure DispatchOut where
  result : PickupMsgType
  deleteItem : Bool
  playerDirty : Bool
  game : GameG
  loot : LootL
  player : PlayerP

/-- The type-dispatch part of `Loot.interact` (loot.ts lines 57-106).
`bagSizes` models `Constants.bagSizes`; `itemLevel` models
`Items[·].level`.  The calls `p.switchSlot` and `p.useItem` in the weapon
branch mutate player fields (selected slot, current action) that no claim
references and that live in player.ts, outside src/; they are not modelled. -/
def interactDispatch (bagSizes : String → Option (List Nat))
    (itemLevel : String → Nat) (g : GameG) (l : LootL) (p : PlayerP) :
    DispatchOut :=
  if strEndsWith l.typeString "scope" then
    if p.inventory l.typeString > 0 then
      ⟨.AlreadyEquipped, true, false, g, l, p⟩
    else
      let p1 := { p with
        inventory := updateInv p.inventory l.typeString (p.inventory l.typeString + 1) }
      -- `p.setScope` (player.ts, not under src/) records the new scope type
      let p2 := if itemLevel l.typeString > itemLevel p1.scopeTypeString then
          { p1 with scopeTypeString := l.typeString }
        else p1
      ⟨.Success, true, false, g, l, p2⟩
  else if strStartsWith l.typeString "backpack" then
    let r := pickUpTieredItem "backpack" g l p
    ⟨r.1, true, true, r.2.1, l, r.2.2⟩
  else if strStartsWith l.typeString "chest" then
    let r := pickUpTieredItem "chest" g l p
    ⟨r.1, true, true, r.2.1, l, r.2.2⟩
  else if strStartsWith l.typeString "helmet" then
    let r := pickUpTieredItem "helmet" g l p
    ⟨r.1, true, true, r.2.1, l, r.2.2⟩
  else if (bagSizes l.typeString).isSome then
    let levels := (bagSizes l.typeString).getD []
    let currentCount := p.inventory l.typeString
    let maxCapacity := levels.getD p.backpackLevel 0
    if currentCount + l.count ≤ maxCapacity then
      ⟨.Success, true, false, g, l,
        { p with inventory := updateInv p.inventory l.typeString (currentCount + l.count) }⟩
    else if currentCount + 1 > maxCapacity then
      ⟨.Full, true, false, g, l, p⟩
    else if currentCount + l.count > maxCapacity then
      ⟨.Success, false, false,
        { g with fullDirtyObjects := g.fullDirtyObjects ++ [l.id] },
        { l with count := (currentCount + l.count) - maxCapacity },
        { p with inventory := updateInv p.inventory l.typeString maxCapacity }⟩
    else -- unreachable for natural counts: mirrors JS fall-through defaults
      ⟨.Success, true, false, g, l, p⟩
  else
    if p.primaryGun.typeId = 0 then
      ⟨.Success, true, true, g, l,
        { p with primaryGun := { typeString := l.typeString, typeId := l.typeId },
                 weaponsDirty := true }⟩
    else if p.secondaryGun.typeId = 0 then
      ⟨.Success, true, true, g, l,
        { p with secondaryGun := { typeString := l.typeString, typeId := l.typeId },
                 weaponsDirty := true }⟩
    else
      ⟨.Full, true, true, g, l, { p with weaponsDirty := true }⟩

/-- Line 108-110 of loot.ts: unless the player is on mobile and the result
is not Success, send a `PickupPacket` with the loot's type string, its
(possibly already updated) count and the result. -/
def sendPickupPacket (d : DispatchOut) : DispatchOut :=
  if d.player.isMobile ∧ d.result ≠ .Success then d
  else
    { d with player := { d.player with
        sentPackets := d.player.sentPackets ++
          [⟨d.loot.typeString, d.loot.count, d.result⟩] } }

/-- Result of a full `Loot.interact` call. -/
structure InteractOut where
  game : GameG
  loot : LootL
  player : PlayerP
  result : PickupMsgType

/-- Lines 111-125 of loot.ts: on Success, delete the loot (if `deleteItem`),
mark the player fully dirty (if `playerDirty`) and set inventory flags. -/
def finishInteract (d : DispatchOut) : InteractOut :=
  if d.result = .Success then
    let gl :=
      if d.deleteItem then
        ({ d.game with
            objects := removeFrom d.game.objects d.loot.id
            loot := removeFrom d.game.loot d.loot.id
            deletedObjects := d.game.deletedObjects ++ [d.loot.id]
            destroyedBodies := d.game.destroyedBodies ++ [d.loot.id] },
          { d.loot with interactable := false })
      else (d.game, d.loot)
    let g1 := if d.playerDirty then
        { gl.1 with fullDirtyObjects := gl.1.fullDirtyObjects ++ [d.player.id] }
      else gl.1
    let p1 := if d.playerDirty then
        { d.player with fullDirtyObjects := d.player.fullDirtyObjects ++ [d.player.id] }
      else d.player
    ⟨g1, gl.2, { p1 with inventoryDirty := true, inventoryEmpty := false }, d.result⟩
  else ⟨d.game, d.loot, d.player, d.result⟩

/-- `Loot.interact(p)`: dispatch, then the pickup packet, then the
success/deletion epilogue. -/
def interact (bagSizes : String → Option (List Nat)) (itemLevel : String → Nat)
    (g : GameG) (l : LootL) (p : PlayerP) : InteractOut :=
  finishInteract (sendPickupPacket (interactDispatch bagSizes itemLevel g l p))

/-! ### The tick loop of `Game` (game.ts) -/

/-- A `DamageRecord` queued by the begin-contact callback:
(damaged object, damaging player, bullet), all as ids. -/
structure DamageRecordR where
  damaged : Nat
  damager : Nat
  bullet : Nat
deriving DecidableEq, Repr

/-- State touched by the damage-record drain loop: the live `bullets`
list, a log of `world.destroyBody` calls and a log of
`damaged.damage(...)` calls as (target, bullet, damager). -/
structure DrainState where
  bullets : List Nat
  destroyedBodies : List Nat
  damageCalls : List (Nat × Nat × Nat)
deriving DecidableEq, Repr

/-- The body of the per-record drain loop (game.ts lines 193-197):
apply the bullet's damage to the target, destroy the bullet's body,
remove the bullet from the live list. -/
def drainStep (s : DrainState) (r : DamageRecordR) : DrainState :=
  { bullets := removeFrom s.bullets r.bullet
    destroyedBodies := s.destroyedBodies ++ [r.bullet]
    damageCalls := s.damageCalls ++ [(r.damaged, r.bullet, r.damager)] }

/-- The whole drain loop over `this.damageRecords`. -/
def drainDamageRecords (records : List DamageRecordR) (s : DrainState) : DrainState :=
  records.foldl drainStep s

/-- The top-level phases of `Game.tick`, in source order. -/
inductive TickPhase where
  | physicsStep
  | aliveCountPacket
  | lootPositions
  | damageDrain
  | playerUpdate
  | connectionPass
  | reset
deriving DecidableEq, Repr

/-- Source order of the phases inside the `Game.tick` callback. -/
def tickPhaseOrder : List TickPhase :=
  [.physicsStep, .aliveCountPacket, .lootPositions, .damageDrain,
   .playerUpdate, .connectionPass, .reset]

/-- The per-tick collections of `Game` reset at the end of `tick`
(game.ts lines 415-433), plus `newObjects`, which is declared next to the
dirty sets (line 55). -/
structure TickCollections where
  newObjects : List Nat
  partialDirtyObjects : List Nat
  fullDirtyObjects : List Nat
  deletedObjects : List Nat
  newPlayers : List Nat
  deletedPlayers : List Nat
  emotes : List Nat
  explosions : List Nat
  dirtyBullets : List Nat
  kills : List Nat
  roleAnnouncements : List Nat
  damageRecords : List DamageRecordR
  gasDirty : Bool
  gasCircleDirty : Bool
  aliveCountDirty : Bool
deriving DecidableEq, Repr

/-- The "Reset everything" block at the end of `Game.tick`:
exactly the assignments of game.ts lines 416-433. -/
def endOfTickReset (s : TickCollections) : TickCollections :=
  { s with
    fullDirtyObjects := []
    partialDirtyObjects := []
    deletedObjects := []
    newPlayers := []
    deletedPlayers := []
    emotes := []
    explosions := []
    dirtyBullets := []
    kills := []
    roleAnnouncements := []
    damageRecords := []
    gasDirty := false
    gasCircleDirty := false
    aliveCountDirty := false }

/-- The "Update loot positions" loop (game.ts lines 186-191): a loot whose
position moved since the last tick is pushed onto `partialDirtyObjects`,
and its `oldPos` is refreshed. -/
def updateLootPositions (g : GameG) (loots : List LootL) : GameG × List LootL :=
  (loots.foldl
    (fun gg l =>
      if l.oldPos ≠ l.position then
        { gg with partialDirtyObjects := gg.partialDirtyObjects ++ [l.id] }
      else gg)
    g,
   loots.map fun l => { l with oldPos := l.position })

/-- A connection's per-player delta lists (`p.fullDirtyObjects` etc. on
`Player`). -/
structure ConnDelta where
  fullDirtyObjects : List Nat
  partialDirtyObjects : List Nat
  deletedObjects : List Nat
deriving DecidableEq, Repr

/-- The per-connection part of the second tick loop (game.ts lines
386-406): session-scope full/partial dirty objects are pushed onto the
connection's lists only when visible; deleted objects are pushed
unconditionally (the visibility check is commented out in the source). -/
def buildConnDelta (gFull gPartial gDeleted visible : List Nat) (c : ConnDelta) :
    ConnDelta :=
  let c1 :=
    if gFull.isEmpty then c
    else { c with fullDirtyObjects :=
            c.fullDirtyObjects ++ gFull.filter (fun o => visible.contains o) }
  let c2 :=
    if gPartial.isEmpty then c1
    else { c1 with partialDirtyObjects :=
            c1.partialDirtyObjects ++ gPartial.filter (fun o => visible.contains o) }
  if gDeleted.isEmpty then c2
  else { c2 with deletedObjects := c2.deletedObjects ++ gDeleted }

/-! ### Melee combat (game.ts lines 271-311, 349-361) -/

/-- The result of a distance test from utils (`CollisionRecord`). -/
structure CollisionRecord where
  collided : Bool
  distance : Int
deriving DecidableEq, Repr

/-- Modelled from the spec: utils' `distanceToCircle` is not under src/.
Circle-vs-circle distance test: the circles collide when the distance
between the centers is below the sum of the radii; the reported distance
is the (squared) center distance, compared against squared thresholds so
the embedding stays in `Int`. -/
def distanceToCircle (pos1 : Int × Int) (r1 : Int) (pos2 : Int × Int) (r2 : Int) :
    CollisionRecord :=
  let dx := pos1.1 - pos2.1
  let dy := pos1.2 - pos2.2
  let d2 := dx * dx + dy * dy
  ⟨decide (d2 < (r1 + r2) * (r1 + r2)), d2⟩

/-- Clamp an integer into an interval. -/
def clampI (x lo hi : Int) : Int := max lo (min x hi)

/-- Modelled from the spec: utils' `distanceToRect` is not under src/.
Circle-vs-axis-aligned-rectangle distance test: the circle collides when
its center's distance to the rectangle (distance to the clamped nearest
point) is below its radius; squared measures keep the embedding in `Int`. -/
def distanceToRect (rmin rmax : Int × Int) (pos : Int × Int) (rad : Int) :
    CollisionRecord :=
  let cx := clampI pos.1 rmin.1 rmax.1
  let cy := clampI pos.2 rmin.2 rmax.2
  let dx := pos.1 - cx
  let dy := pos.2 - cy
  let d2 := dx * dx + dy * dy
  ⟨decide (d2 < rad * rad), d2⟩

/-- The collision shape of a potential melee target: a player body
(circle of its scale), or an obstacle with a circle or rectangle
collision shape. -/
inductive TargetShape where
  | playerBody (scale : Int)
  | obstacleCircle (rad : Int)
  | obstacleRect (rmin rmax : Int × Int)
deriving DecidableEq, Repr

/-- The fields of a visible object that the melee hit-test loop reads. -/
structure MeleeTarget where
  id : Nat
  pos : Int × Int
  shape : TargetShape
  hasBody : Bool
  dead : Bool
  damageable : Bool
  interactable : Bool
deriving DecidableEq, Repr

/-- The shape-appropriate distance test picked by the loop's
`instanceof` branching (game.ts lines 293-301). -/
def targetRecord (hitPos : Int × Int) (radius : Int) (o : MeleeTarget) :
    CollisionRecord :=
  match o.shape with
  | .playerBody scale => distanceToCircle o.pos scale hitPos radius
  | .obstacleCircle rad => distanceToCircle o.pos rad hitPos radius
  | .obstacleRect rmin rmax => distanceToRect rmin rmax hitPos radius

/-- The eligibility filter of the loop (game.ts line 291):
`object.body && !object.dead && object !== p && object.damageable`. -/
def eligibleTarget (attackerId : Nat) (o : MeleeTarget) : Bool :=
  o.hasBody && !o.dead && (o.id != attackerId) && o.damageable

/-- One iteration of the closest-target loop.  The accumulator pairs the
running `minDist` with `closestObject`; `none` models the initial state
(`minDist = Number.MAX_VALUE`, `closestObject = undefined`), against
which any finite distance compares smaller. -/
def scanStep (attackerId : Nat) (hitPos : Int × Int) (radius : Int)
    (acc : Option (Int × MeleeTarget)) (o : MeleeTarget) :
    Option (Int × MeleeTarget) :=
  if eligibleTarget attackerId o then
    let cr := targetRecord hitPos radius o
    if cr.collided &&
        (match acc with
         | none => true
         | some (m, _) => decide (cr.distance < m)) then
      some (cr.distance, o)
    else acc
  else acc

/-- The closest-target loop over the attacker's visible objects. -/
def meleeScan (attackerId : Nat) (hitPos : Int × Int) (radius : Int)
    (objects : List MeleeTarget) : Option (Int × MeleeTarget) :=
  objects.foldl (scanStep attackerId hitPos radius) none

/-- Log of the side effects of a melee swing: `damage` calls as
(target id, amount) and `interact` calls as target ids. -/
structure MeleeEffects where
  damageCalls : List (Nat × Int)
  interactCalls : List Nat
deriving DecidableEq, Repr

/-- Game.ts lines 308-311: damage the closest object by the fixed melee
amount 24 and interact with it when it is interactable. -/
def meleeHit (attackerId : Nat) (hitPos : Int × Int) (radius : Int)
    (objects : List MeleeTarget) : MeleeEffects :=
  match meleeScan attackerId hitPos radius objects with
  | some (_, o) => ⟨[(o.id, 24)], if o.interactable then [o.id] else []⟩
  | none => ⟨[], []⟩

/-- The animation fields of a player (game.ts lines 273-279, 349-361). -/
structure AnimP where
  id : Nat
  animActive : Bool
  animType : Int
  animSeq : Int
  animTime : Int
  moving : Bool
deriving DecidableEq, Repr

/-- Game.ts lines 273-280: when the attacker is not already animating,
start the punch animation and push the attacker onto the session-scope
`fullDirtyObjects` (the mirrored per-connection push is not modelled). -/
def startPunchAnim (gFull : List Nat) (p : AnimP) : List Nat × AnimP :=
  if p.animActive then (gFull, p)
  else
    (gFull ++ [p.id],
     { p with animActive := true, animType := 1, animSeq := 1, animTime := 0 })

/-- The per-tick animation logic (game.ts lines 349-361) over
(session fullDirtyObjects, session partialDirtyObjects, player):
increment the timer while animating; past 8, clear the animation and mark
the player fully dirty; otherwise a moving player is marked partially
dirty; `moving` is reset at the end of the loop body. -/
def animStep : List Nat × List Nat × AnimP → List Nat × List Nat × AnimP
  | (gFull, gPartial, p) =>
    let p1 := if p.animActive then { p with animTime := p.animTime + 1 } else p
    if p1.animTime > 8 then
      (gFull ++ [p1.id], gPartial,
       { p1 with animActive := false, animType := 0, animSeq := 0,
                 animTime := -1, moving := false })
    else if p1.moving then
      (gFull, gPartial ++ [p1.id], { p1 with moving := false })
    else (gFull, gPartial, { p1 with moving := false })

/-- Iterated ticks of the animation logic. -/
def animTicks : Nat → List Nat × List Nat × AnimP → List Nat × List Nat × AnimP
  | 0, s => s
  | n + 1, s => animTicks n (animStep s)

/-- The melee branch of the weapon logic for a firing player whose
cooldown elapsed (game.ts lines 271-311): start the punch animation, then
run the closest-target hit test over the attacker's visible objects.
The forward-offset hit point is computed from the weapon's offset and the
player's direction with real-valued trigonometry; it enters the embedding
as the `hitPos` argument. -/
def meleeFireStep (gFull : List Nat) (p : AnimP) (hitPos : Int × Int)
    (radius : Int) (visibleObjects : List MeleeTarget) :
    List Nat × AnimP × MeleeEffects :=
  let ga := startPunchAnim gFull p
  (ga.1, ga.2, meleeHit p.id hitPos radius visibleObjects)

/-! ### Collision filtering (game.ts lines 144-152) -/

/-- Object kind tags relevant to the collision filter.  Bullets are not
`GameObject`s; they carry `isBullet = true` and none of the three
`ObjectKind` tags checked by the filter. -/
inductive OKind where
  | player
  | obstacle
  | loot
  | projectile
deriving DecidableEq, Repr

/-- The fields of a fixture's user data read by `shouldCollide`. -/
structure FixtureData where
  layer : Int
  kind : OKind
  isBullet : Bool
deriving DecidableEq, Repr

/-- `Fixture.prototype.shouldCollide` (game.ts lines 144-152), evaluated
from the side of `thisObj`. -/
def shouldCollide (thisObj thatObj : FixtureData) : Bool :=
  if thisObj.layer ≠ thatObj.layer then false
  else if thisObj.kind == .player then
    (thatObj.kind == .obstacle) || thatObj.isBullet
  else if thisObj.isBullet then
    (thatObj.kind != .loot) &&
      ((thatObj.kind == .player) || (thatObj.kind == .obstacle) || thatObj.isBullet)
  else if thisObj.kind == .loot then
    (thatObj.kind == .obstacle) || (thatObj.kind == .loot)
  else false

/-! ### Joining the game (`Game.addPlayer`, game.ts lines 450-481) -/

/-- The messages sent to a joining connection. -/
inductive Msg where
  | joined
  | mapDesc
  | update
  | aliveCounts
deriving DecidableEq, Repr

/-- An outbound transmission: `p.sendPacket` serializes and sends a single
packet; `p.sendData` sends one pre-serialized buffer. -/
inductive OutEvent where
  | sendPacket (m : Msg)
  | sendData (buf : List Msg)
deriving DecidableEq, Repr

/-- The outbound buffers of a sequence of transmissions: a `sendPacket`
produces its own buffer holding just that packet; a `sendData` sends the
buffer it was given. -/
def outBuffers : List OutEvent → List (List Msg)
  | [] => []
  | .sendPacket m :: es => [m] :: outBuffers es
  | .sendData buf :: es => buf :: outBuffers es

/-- The parts of `Game` that `addPlayer` mutates. `nextObjectId` is the
id the incrementing getter will hand out next. -/
structure AddPlayerG where
  objects : List Nat
  players : List Nat
  connectedPlayers : List Nat
  activePlayers : List Nat
  newPlayers : List Nat
  fullDirtyObjects : List Nat
  aliveCount : Nat
  aliveCountDirty : Bool
  playerInfosDirty : Bool
  nextObjectId : Nat
deriving DecidableEq, Repr

/-- `Game.addPlayer` (game.ts lines 450-481): register the new player,
then send a `JoinedPacket` via `sendPacket`, and serialize the
`MapPacket`, `UpdatePacket` and `AliveCountsPacket`, in that order, into
one freshly allocated stream sent via `sendData`.  Returns the mutated
game, the new player's id and the outbound events in order. -/
def addPlayer (g : AddPlayerG) : AddPlayerG × Nat × List OutEvent :=
  let pid := g.nextObjectId
  let g1 : AddPlayerG :=
    { g with
      nextObjectId := g.nextObjectId + 1
      objects := g.objects ++ [pid]
      players := g.players ++ [pid]
      connectedPlayers := g.connectedPlayers ++ [pid]
      activePlayers := g.activePlayers ++ [pid]
      newPlayers := g.newPlayers ++ [pid]
      fullDirtyObjects := g.fullDirtyObjects ++ [pid]
      aliveCount := g.aliveCount + 1
      aliveCountDirty := true
      playerInfosDirty := true }
  (g1, pid, [.sendPacket .joined, .sendData [.mapDesc, .update, .aliveCounts]])

/-- The collided flag of the shape-appropriate distance test for a target. -/
def collidesAt (hitPos : Int × Int) (radius : Int) (o : MeleeTarget) : Bool :=
  (targetRecord hitPos radius o).collided

/-- The distance reported by the shape-appropriate distance test. -/
def distAt (hitPos : Int × Int) (radius : Int) (o : MeleeTarget) : Int :=
  (targetRecord hitPos radius o).distance

/-! ### Concrete fixtures used by witnesses and counterexamples -/

/-- Concrete fixtures for the claim witnesses: a bandage loot stack and a
fresh player, with the bandage row of `Constants.bagSizes`. -/
def bagW : String → Option (List Nat) :=
  fun s => if s = "bandage" then some [5, 10, 15, 30] else none

/-- Item level table for the witnesses. -/
def lvlW : String → Nat := fun _ => 0

/-- Witness player. -/
def pW : PlayerP :=
  { id := 1, isMobile := false, inventory := fun _ => 0, backpackLevel := 0,
    chestLevel := 0, helmetLevel := 0, scopeTypeString := "1xscope",
    primaryGun := ⟨"", 0⟩, secondaryGun := ⟨"", 0⟩, weaponsDirty := false,
    inventoryDirty := false, inventoryEmpty := true, fullDirtyObjects := [],
    sentPackets := [] }

/-- Witness loot: a stack of 3 bandages. -/
def lW : LootL :=
  { id := 7, typeString := "bandage", typeId := 3, count := 3,
    position := (1, 2), oldPos := (0, 0), layer := 0, interactable := true }

/-- Witness game state. -/
def gW : GameG :=
  { objects := [7], loot := [7], spawnedLoot := [], deletedObjects := [],
    fullDirtyObjects := [], partialDirtyObjects := [], destroyedBodies := [],
    nextObjectId := 10 }

/-- Witness player for C2: chest tier 1 equipped. -/
def pW2 : PlayerP := { pW with chestLevel := 1 }

/-- Witness loot for C2: a tier-2 chest. -/
def lW2 : LootL := { lW with typeString := "chest02", typeId := 4, count := 1 }

/-- C4 fixture: a loot that moved this tick (oldPos differs from
position) and is about to be fully picked up. -/
def lW4 : LootL :=
  { id := 7, typeString := "bandage", typeId := 3, count := 3,
    position := (5, 5), oldPos := (0, 0), layer := 0, interactable := true }

/-- A mobile variant of the witness player. -/
def pMobileW : PlayerP := { pW with isMobile := true }

/-- C3 fixture: the live bullets list holds bullet 5 once. -/
def drainW : DrainState := ⟨[5], [], []⟩

/-- C3 fixture: bullet 5 produced two contact records in one physics
step (it began contact with objects 2 and 3). -/
def recsW : List DamageRecordR := [⟨2, 1, 5⟩, ⟨3, 1, 5⟩]

/-- C5 fixture: per-tick collections that are all non-empty. -/
def tickColsW : TickCollections :=
  { newObjects := [1], partialDirtyObjects := [2], fullDirtyObjects := [3],
    deletedObjects := [4], newPlayers := [5], deletedPlayers := [6],
    emotes := [7], explosions := [8], dirtyBullets := [9], kills := [10],
    roleAnnouncements := [11], damageRecords := [⟨1, 2, 3⟩],
    gasDirty := true, gasCircleDirty := true, aliveCountDirty := true }

/-- C6 fixture: a connection with empty per-player delta lists. -/
def cW : ConnDelta := ⟨[], [], []⟩

/-- C7 fixture: an empty game about to receive its first player. -/
def gAW : AddPlayerG := ⟨[], [], [], [], [], [], 0, false, false, 0⟩

/-- C8 fixture: the melee attacker, not yet animating. -/
def attackerW : AnimP := ⟨1, false, 0, 0, 0, false⟩

/-- C8 fixture: a visible enemy player within melee range of the hit
point (0, 0). -/
def targetW : MeleeTarget := ⟨2, (1, 0), .playerBody 1, true, false, true, false⟩

/-- C9 fixture: a player fixture on layer 0. -/
def playerFixW : FixtureData := ⟨0, .player, false⟩

/-- C9 fixture: an obstacle fixture on layer 0. -/
def obstacleFixW : FixtureData := ⟨0, .obstacle, false⟩

/-- C9 fixture: a bullet fixture on layer 0. -/
def bulletFixW : FixtureData := ⟨0, .projectile, true⟩

/-! ### Helper lemmas -/

@[simp]
lemma setLevel_sentPackets (p : PlayerP) (ty : String) (v : Nat) :
    (setLevel p ty v).sentPackets = p.sentPackets := by
  simp only [setLevel]
  repeat' split
  all_goals rfl

@[simp]
lemma setLevel_isMobile (p : PlayerP) (ty : String) (v : Nat) :
    (setLevel p ty v).isMobile = p.isMobile := by
  simp only [setLevel]
  repeat' split
  all_goals rfl

@[simp]
lemma getLevel_setLevel (p : PlayerP) (ty : String) (v : Nat) :
    getLevel (setLevel p ty v) ty = v := by
  unfold getLevel setLevel
  by_cases h1 : ty = "backpack" <;> by_cases h2 : ty = "chest" <;> simp [h1, h2]

@[simp]
lemma pickUpTieredItem_player_sentPackets (ty : String) (g : GameG) (l : LootL)
    (p : PlayerP) :
    (pickUpTieredItem ty g l p).2.2.sentPackets = p.sentPackets := by
  simp only [pickUpTieredItem]
  repeat' split
  all_goals simp

@[simp]
lemma pickUpTieredItem_player_isMobile (ty : String) (g : GameG) (l : LootL)
    (p : PlayerP) :
    (pickUpTieredItem ty g l p).2.2.isMobile = p.isMobile := by
  simp only [pickUpTieredItem]
  repeat' split
  all_goals simp

@[simp]
lemma sendPickupPacket_result (d : DispatchOut) :
    (sendPickupPacket d).result = d.result := by
  simp only [sendPickupPacket]
  repeat' split
  all_goals rfl

@[simp]
lemma sendPickupPacket_game (d : DispatchOut) :
    (sendPickupPacket d).game = d.game := by
  simp only [sendPickupPacket]
  repeat' split
  all_goals rfl

@[simp]
lemma sendPickupPacket_loot (d : DispatchOut) :
    (sendPickupPacket d).loot = d.loot := by
  simp only [sendPickupPacket]
  repeat' split
  all_goals rfl

@[simp]
lemma sendPickupPacket_deleteItem (d : DispatchOut) :
    (sendPickupPacket d).deleteItem = d.deleteItem := by
  simp only [sendPickupPacket]
  repeat' split
  all_goals rfl

@[simp]
lemma sendPickupPacket_playerDirty (d : DispatchOut) :
    (sendPickupPacket d).playerDirty = d.playerDirty := by
  simp only [sendPickupPacket]
  repeat' split
  all_goals rfl

@[simp]
lemma sendPickupPacket_player_inventory (d : DispatchOut) :
    (sendPickupPacket d).player.inventory = d.player.inventory := by
  simp only [sendPickupPacket]
  repeat' split
  all_goals rfl

@[simp]
lemma sendPickupPacket_player_isMobile (d : DispatchOut) :
    (sendPickupPacket d).player.isMobile = d.player.isMobile := by
  simp only [sendPickupPacket]
  repeat' split
  all_goals rfl

@[simp]
lemma finishInteract_result (d : DispatchOut) :
    (finishInteract d).result = d.result := by
  simp only [finishInteract]
  repeat' split
  all_goals rfl

@[simp]
lemma finishInteract_loot_count (d : DispatchOut) :
    (finishInteract d).loot.count = d.loot.count := by
  simp only [finishInteract]
  repeat' split
  all_goals rfl

@[simp]
lemma finishInteract_player_sentPackets (d : DispatchOut) :
    (finishInteract d).player.sentPackets = d.player.sentPackets := by
  simp only [finishInteract]
  repeat' split
  all_goals rfl

@[simp]
lemma finishInteract_player_inventory (d : DispatchOut) :
    (finishInteract d).player.inventory = d.player.inventory := by
  simp only [finishInteract]
  repeat' split
  all_goals rfl

lemma interactDispatch_player_sentPackets (bagSizes : String → Option (List Nat))
    (itemLevel : String → Nat) (g : GameG) (l : LootL) (p : PlayerP) :
    (interactDispatch bagSizes itemLevel g l p).player.sentPackets = p.sentPackets := by
  simp only [interactDispatch]
  repeat' split
  all_goals simp

lemma interactDispatch_player_isMobile (bagSizes : String → Option (List Nat))
    (itemLevel : String → Nat) (g : GameG) (l : LootL) (p : PlayerP) :
    (interactDispatch bagSizes itemLevel g l p).player.isMobile = p.isMobile := by
  simp only [interactDispatch]
  repeat' split
  all_goals simp

lemma interactDispatch_loot_typeString (bagSizes : String → Option (List Nat))
    (itemLevel : String → Nat) (g : GameG) (l : LootL) (p : PlayerP) :
    (interactDispatch bagSizes itemLevel g l p).loot.typeString = l.typeString := by
  simp only [interactDispatch]
  repeat' split
  all_goals simp

/-! ### Claim theorems -/

/-- C1. Consumable-stack pickup via `Loot.interact`: with `C` the bag
capacity of the item at the player's backpack level, `c` the player's
current count and `a` the loot's (positive) count — if `c + a ≤ C` the
player's count becomes `c + a`, the result is Success and the loot is
removed from `objects` and `loot`, its body destroyed, and it is pushed
onto `deletedObjects`; if `c ≥ C` the result is Full and neither the
inventory nor the loot's count changes; if `c < C < c + a` the player's
count becomes `C`, the loot keeps the remainder `c + a - C`, is pushed
onto `fullDirtyObjects` instead of being deleted, and the result is
Success. -/
theorem loot_interact_stack_pickup
    (bagSizes : String → Option (List Nat)) (itemLevel : String → Nat)
    (g : GameG) (l : LootL) (p : PlayerP) (levels : List Nat) (C c a : Nat)
    (hscope : strEndsWith l.typeString "scope" = false)
    (hbp : strStartsWith l.typeString "backpack" = false)
    (hch : strStartsWith l.typeString "chest" = false)
    (hhe : strStartsWith l.typeString "helmet" = false)
    (hbag : bagSizes l.typeString = some levels)
    (hC : C = levels.getD p.backpackLevel 0)
    (hc : c = p.inventory l.typeString)
    (ha : a = l.count)
    (hpos : 1 ≤ a)
    (r : InteractOut) (hr : r = interact bagSizes itemLevel g l p) :
    (c + a ≤ C →
      r.player.inventory l.typeString = c + a ∧
      r.result = .Success ∧
      r.game.objects = removeFrom g.objects l.id ∧
      r.game.loot = removeFrom g.loot l.id ∧
      r.game.deletedObjects = g.deletedObjects ++ [l.id] ∧
      r.game.destroyedBodies = g.destroyedBodies ++ [l.id]) ∧
    (C ≤ c →
      r.result = .Full ∧
      r.player.inventory = p.inventory ∧
      r.loot.count = l.count) ∧
    (c < C → C < c + a →
      r.player.inventory l.typeString = C ∧
      r.loot.count = c + a - C ∧
      r.game.fullDirtyObjects = g.fullDirtyObjects ++ [l.id] ∧
      r.game.deletedObjects = g.deletedObjects ∧
      r.game.objects = g.objects ∧
      r.result = .Success) := by
  subst hr hC hc ha
  refine ⟨?_, ?_, ?_⟩
  · intro hle
    simp only [interact, interactDispatch, hscope, hbp, hch, hhe, hbag,
      Option.isSome_some, Option.getD_some, hle, Bool.false_eq_true,
      if_false, if_true, ite_true, ite_false, reduceIte]
    simp only [sendPickupPacket, finishInteract]
    simp [updateInv]
  · intro hge
    have h1 : ¬(p.inventory l.typeString + l.count ≤ levels.getD p.backpackLevel 0) := by
      omega
    have h2 : p.inventory l.typeString + 1 > levels.getD p.backpackLevel 0 := by
      omega
    simp only [interact, interactDispatch, hscope, hbp, hch, hhe, hbag,
      Option.isSome_some, Option.getD_some, h1, h2, Bool.false_eq_true,
      if_false, if_true, ite_true, ite_false, reduceIte]
    simp only [sendPickupPacket, finishInteract]
    repeat' split
    all_goals simp_all
  · intro hlt hgt
    have h1 : ¬(p.inventory l.typeString + l.count ≤ levels.getD p.backpackLevel 0) := by
      omega
    have h2 : ¬(p.inventory l.typeString + 1 > levels.getD p.backpackLevel 0) := by
      omega
    have h3 : p.inventory l.typeString + l.count > levels.getD p.backpackLevel 0 := by
      omega
    simp only [interact, interactDispatch, hscope, hbp, hch, hhe, hbag,
      Option.isSome_some, Option.getD_some, h1, h2, h3, Bool.false_eq_true,
      if_false, if_true, ite_true, ite_false, reduceIte]
    simp only [sendPickupPacket, finishInteract]
    simp [updateInv]

/-- Witness for C1: picking up 3 bandages with 0 held and capacity 5. -/
theorem loot_interact_stack_pickup_witness :
    (interact bagW lvlW gW lW pW).player.inventory "bandage" = 0 + 3 ∧
    (interact bagW lvlW gW lW pW).result = .Success ∧
    (interact bagW lvlW gW lW pW).game.objects = removeFrom gW.objects 7 ∧
    (interact bagW lvlW gW lW pW).game.loot = removeFrom gW.loot 7 ∧
    (interact bagW lvlW gW lW pW).game.deletedObjects = gW.deletedObjects ++ [7] ∧
    (interact bagW lvlW gW lW pW).game.destroyedBodies = gW.destroyedBodies ++ [7] :=
  (loot_interact_stack_pickup bagW lvlW gW lW pW [5, 10, 15, 30] 5 0 3
    (by decide) (by decide) (by decide) (by decide) (by decide) (by decide)
    rfl rfl (by decide) (interact bagW lvlW gW lW pW) rfl).1 (by decide)

/-- C2. Tiered-item pickup via `Loot.pickUpTieredItem`: a loot tier below
the equipped tier yields BetterItemEquipped with no mutation; an equal
tier yields AlreadyEquipped with no mutation; a strictly higher tier sets
the player's tier to the loot's tier, returns Success, and spawns a new
Loot carrying the displaced tier at the same position and layer exactly
when the previous tier was non-zero. -/
theorem pickUpTieredItem_tier_cases (ty : String) (g : GameG) (l : LootL)
    (p : PlayerP)
    (hty : ty = "backpack" ∨ ty = "chest" ∨ ty = "helmet")
    (r : PickupMsgType × GameG × PlayerP) (hr : r = pickUpTieredItem ty g l p) :
    (lastCharDigit l.typeString < getLevel p ty →
      r.1 = .BetterItemEquipped ∧ r.2.1 = g ∧ r.2.2 = p) ∧
    (lastCharDigit l.typeString = getLevel p ty →
      r.1 = .AlreadyEquipped ∧ r.2.1 = g ∧ r.2.2 = p) ∧
    (getLevel p ty < lastCharDigit l.typeString →
      r.1 = .Success ∧
      getLevel r.2.2 ty = lastCharDigit l.typeString ∧
      (getLevel p ty ≠ 0 →
        r.2.1 = { g with
          nextObjectId := g.nextObjectId + 1
          loot := g.loot ++ [g.nextObjectId]
          spawnedLoot := g.spawnedLoot ++
            [{ id := g.nextObjectId
               typeString := ty ++ "0" ++ toString (getLevel p ty)
               typeId := 0
               count := 1
               position := l.position
               oldPos := l.position
               layer := l.layer
               interactable := true }]
          objects := g.objects ++ [g.nextObjectId]
          fullDirtyObjects := g.fullDirtyObjects ++ [g.nextObjectId] }) ∧
      (getLevel p ty = 0 → r.2.1 = g)) := by
  subst hr
  refine ⟨?_, ?_, ?_⟩
  · intro h
    simp only [pickUpTieredItem]
    rw [if_pos h]
    exact ⟨rfl, rfl, rfl⟩
  · intro h
    simp only [pickUpTieredItem]
    rw [if_neg (by omega), if_pos h]
    exact ⟨rfl, rfl, rfl⟩
  · intro h
    simp only [pickUpTieredItem]
    rw [if_neg (by omega), if_neg (by omega)]
    refine ⟨?_, ?_, ?_, ?_⟩
    · split <;> rfl
    · split <;> simp
    · intro h0
      rw [if_pos h0]
    · intro h0
      rw [if_neg (not_not_intro h0)]

/-- Witness for C2: picking up a tier-2 chest while wearing tier 1
equips it and spawns a "chest01" loot at the same position and layer. -/
theorem pickUpTieredItem_tier_cases_witness :
    (pickUpTieredItem "chest" gW lW2 pW2).1 = .Success ∧
    getLevel (pickUpTieredItem "chest" gW lW2 pW2).2.2 "chest" = 2 ∧
    (pickUpTieredItem "chest" gW lW2 pW2).2.1 = { gW with
      nextObjectId := 11
      loot := [7, 10]
      spawnedLoot := [{ id := 10, typeString := "chest01", typeId := 0,
                        count := 1, position := (1, 2), oldPos := (1, 2),
                        layer := 0, interactable := true }]
      objects := [7, 10]
      fullDirtyObjects := [10] } := by
  have h := (pickUpTieredItem_tier_cases "chest" gW lW2 pW2
    (Or.inr (Or.inl rfl)) (pickUpTieredItem "chest" gW lW2 pW2) rfl).2.2
    (by decide)
  exact ⟨h.1, by rw [h.2.1]; decide, by rw [h.2.2.1 (by decide)]; decide⟩

/-- C10. For every `Loot.interact` call: a mobile player with a
non-Success result gets no pickup packet; in every other case exactly one
`PickupPacket` carrying the loot's type string, its (current) count and
the result code is appended to the player's outgoing packets. -/
theorem interact_pickup_packet_send (bagSizes : String → Option (List Nat))
    (itemLevel : String → Nat) (g : GameG) (l : LootL) (p : PlayerP)
    (r : InteractOut) (hr : r = interact bagSizes itemLevel g l p) :
    r.player.sentPackets =
      if p.isMobile = true ∧ r.result ≠ .Success then p.sentPackets
      else p.sentPackets ++ [⟨l.typeString, r.loot.count, r.result⟩] := by
  subst hr
  simp only [interact, finishInteract_player_sentPackets, finishInteract_result,
    finishInteract_loot_count, sendPickupPacket_result, sendPickupPacket_loot,
    interactDispatch_loot_typeString]
  rw [show (sendPickupPacket (interactDispatch bagSizes itemLevel g l p)).player.sentPackets =
    if (interactDispatch bagSizes itemLevel g l p).player.isMobile = true ∧
        (interactDispatch bagSizes itemLevel g l p).result ≠ .Success then
      (interactDispatch bagSizes itemLevel g l p).player.sentPackets
    else (interactDispatch bagSizes itemLevel g l p).player.sentPackets ++
      [⟨(interactDispatch bagSizes itemLevel g l p).loot.typeString,
        (interactDispatch bagSizes itemLevel g l p).loot.count,
        (interactDispatch bagSizes itemLevel g l p).result⟩] from by
      simp only [sendPickupPacket]
      split <;> simp_all]
  rw [interactDispatch_player_sentPackets, interactDispatch_player_isMobile,
    interactDispatch_loot_typeString]

/-- Witness for C10: a non-mobile player picking up bandages receives
exactly one pickup packet. -/
theorem interact_pickup_packet_send_witness :
    (interact bagW lvlW gW lW pW).player.sentPackets =
      if pW.isMobile = true ∧ (interact bagW lvlW gW lW pW).result ≠ .Success
      then pW.sentPackets
      else pW.sentPackets ++
        [⟨lW.typeString, (interact bagW lvlW gW lW pW).loot.count,
          (interact bagW lvlW gW lW pW).result⟩] :=
  interact_pickup_packet_send bagW lvlW gW lW pW (interact bagW lvlW gW lW pW) rfl

lemma drain_destroyed_calls (records : List DamageRecordR) (s : DrainState) :
    (drainDamageRecords records s).destroyedBodies =
      s.destroyedBodies ++ records.map (fun r => r.bullet) := by
  induction records generalizing s with
  | nil => simp [drainDamageRecords]
  | cons r rs ih =>
      rw [show drainDamageRecords (r :: rs) s = drainDamageRecords rs (drainStep s r)
        from rfl, ih]
      simp [drainStep]

lemma drain_damage_calls (records : List DamageRecordR) (s : DrainState) :
    (drainDamageRecords records s).damageCalls =
      s.damageCalls ++ records.map (fun r => (r.damaged, r.bullet, r.damager)) := by
  induction records generalizing s with
  | nil => simp [drainDamageRecords]
  | cons r rs ih =>
      rw [show drainDamageRecords (r :: rs) s = drainDamageRecords rs (drainStep s r)
        from rfl, ih]
      simp [drainStep]

lemma drain_bullets_count (records : List DamageRecordR) (s : DrainState) (b : Nat) :
    (drainDamageRecords records s).bullets.count b =
      s.bullets.count b -
        min (s.bullets.count b) (records.countP (fun r => r.bullet == b)) := by
  induction records generalizing s with
  | nil => simp [drainDamageRecords]
  | cons r rs ih =>
      rw [show drainDamageRecords (r :: rs) s = drainDamageRecords rs (drainStep s r)
        from rfl, ih]
      simp only [drainStep, removeFrom, List.count_erase, List.countP_cons]
      by_cases hb : r.bullet = b
      · simp only [hb, beq_self_eq_true, if_true, reduceIte]
        omega
      · have hbe : (r.bullet == b) = false := by simp [hb]
        simp only [hbe, if_false, Bool.false_eq_true, reduceIte]
        omega

/-- C3 counterexample: when bullet 5 produces two contact records in the
same physics step, the drain destroys its body twice and applies its
damage twice — refuting "no bullet is destroyed twice and no bullet's
damage is applied twice". -/
theorem damage_record_drain_double_destroy :
    (drainDamageRecords recsW drainW).destroyedBodies = [5, 5] ∧
    ¬((drainDamageRecords recsW drainW).destroyedBodies.count 5 ≤ 1) ∧
    (drainDamageRecords recsW drainW).damageCalls = [(2, 5, 1), (3, 5, 1)] := by
  decide

/-- C3 (amended). Each queued DamageRecord is consumed exactly once by
the per-tick drain, which runs before the player update loop, and the
record list is cleared by the end-of-tick reset; per record, the bullet's
body destroy is invoked once and its damage applied once (so a bullet
occurring in several records is destroyed and damages once per record),
while removal from the live bullets list is idempotent — a bullet present
once leaves the list at most once. -/
theorem damage_record_drain_per_record (records : List DamageRecordR)
    (s : DrainState) (b : Nat) (tc : TickCollections) :
    (drainDamageRecords records s).destroyedBodies =
      s.destroyedBodies ++ records.map (fun r => r.bullet) ∧
    (drainDamageRecords records s).damageCalls =
      s.damageCalls ++ records.map (fun r => (r.damaged, r.bullet, r.damager)) ∧
    (drainDamageRecords records s).bullets.count b =
      s.bullets.count b -
        min (s.bullets.count b) (records.countP (fun r => r.bullet == b)) ∧
    (endOfTickReset tc).damageRecords = [] ∧
    tickPhaseOrder.indexOf .damageDrain < tickPhaseOrder.indexOf .playerUpdate :=
  ⟨drain_destroyed_calls records s, drain_damage_calls records s,
   drain_bullets_count records s b, rfl, by decide⟩

/-- C4. On the failing input — a loot that moved this tick (so the loot
position loop marked it partially dirty) and is then fully picked up by a
mobile player within the same tick — the loot ends up removed from
`Game.objects` and pushed onto `deletedObjects` while still sitting in
`partialDirtyObjects`: at serialization the dirty-set/registry invariant
is violated. -/
theorem loot_deleted_but_still_partial_dirty :
    7 ∈ (interact bagW lvlW (updateLootPositions gW [lW4]).1 lW4 pMobileW).game.partialDirtyObjects ∧
    7 ∉ (interact bagW lvlW (updateLootPositions gW [lW4]).1 lW4 pMobileW).game.objects ∧
    7 ∈ (interact bagW lvlW (updateLootPositions gW [lW4]).1 lW4 pMobileW).game.deletedObjects := by
  decide

/-- C5 counterexample: the end-of-tick reset does not touch `newObjects`,
so a non-empty `newObjects` survives into the next tick. -/
theorem end_of_tick_reset_skips_newObjects :
    (endOfTickReset tickColsW).newObjects ≠ [] := by
  decide

/-- C5 (amended). The end-of-tick reset unconditionally clears
`fullDirtyObjects`, `partialDirtyObjects`, `deletedObjects`,
`newPlayers`, `deletedPlayers`, `emotes`, `explosions`, `dirtyBullets`,
`kills`, `roleAnnouncements` and `damageRecords` — but leaves
`newObjects` untouched. -/
theorem end_of_tick_reset_clears (s : TickCollections) :
    (endOfTickReset s).fullDirtyObjects = [] ∧
    (endOfTickReset s).partialDirtyObjects = [] ∧
    (endOfTickReset s).deletedObjects = [] ∧
    (endOfTickReset s).newPlayers = [] ∧
    (endOfTickReset s).deletedPlayers = [] ∧
    (endOfTickReset s).emotes = [] ∧
    (endOfTickReset s).explosions = [] ∧
    (endOfTickReset s).dirtyBullets = [] ∧
    (endOfTickReset s).kills = [] ∧
    (endOfTickReset s).roleAnnouncements = [] ∧
    (endOfTickReset s).damageRecords = [] ∧
    (endOfTickReset s).newObjects = s.newObjects :=
  ⟨rfl, rfl, rfl, rfl, rfl, rfl, rfl, rfl, rfl, rfl, rfl, rfl⟩

/-- C6. Per connection, a session-scope fully or partially dirty object
enters the connection's delta only if it was already there or it is in
the connection's visible-object set, while the deleted objects are
appended unconditionally, unfiltered by visibility. -/
theorem conn_delta_visibility (gFull gPartial gDeleted visible : List Nat)
    (c : ConnDelta) (o : Nat) (d : ConnDelta)
    (hd : d = buildConnDelta gFull gPartial gDeleted visible c) :
    (o ∈ d.fullDirtyObjects →
      o ∈ c.fullDirtyObjects ∨ (o ∈ gFull ∧ o ∈ visible)) ∧
    (o ∈ d.partialDirtyObjects →
      o ∈ c.partialDirtyObjects ∨ (o ∈ gPartial ∧ o ∈ visible)) ∧
    d.deletedObjects = c.deletedObjects ++ gDeleted := by
  subst hd
  simp only [buildConnDelta]
  refine ⟨?_, ?_, ?_⟩
  · intro h
    repeat' split at h
    all_goals
      try simp only [List.mem_append, List.mem_filter, List.elem_iff] at h
    all_goals tauto
  · intro h
    repeat' split at h
    all_goals
      try simp only [List.mem_append, List.mem_filter, List.elem_iff] at h
    all_goals tauto
  · repeat' split
    all_goals simp_all [List.isEmpty_iff]

/-- Witness for C6: object 3 is session-scope fully dirty and visible, so
it was in the connection delta only because it is visible. -/
theorem conn_delta_visibility_witness :
    3 ∈ cW.fullDirtyObjects ∨ (3 ∈ [3] ∧ 3 ∈ ([3] : List Nat)) :=
  (conn_delta_visibility [3] [] [9] [3] cW 3
    (buildConnDelta [3] [] [9] [3] cW) rfl).1 (by decide)

/-- C7 counterexample: no single outbound buffer produced by
`Game.addPlayer` contains all four join messages — the
joined-acknowledgement is sent as its own packet before the buffer
holding the map description, state snapshot and alive counts. -/
theorem addPlayer_no_single_buffer_with_all_four :
    ¬∃ buf ∈ outBuffers (addPlayer gAW).2.2,
      Msg.joined ∈ buf ∧ Msg.mapDesc ∈ buf ∧ Msg.update ∈ buf ∧
        Msg.aliveCounts ∈ buf := by
  decide

/-- C7 (amended). `Game.addPlayer` sends, in order, the
joined-acknowledgement as its own packet, then one buffer holding the map
description, the full state snapshot and the alive-count snapshot in that
order, before returning (and hence before any periodic updates); the
player is registered in the game's collections. -/
theorem addPlayer_join_sequence (g : AddPlayerG) :
    (addPlayer g).2.2 =
      [.sendPacket .joined, .sendData [.mapDesc, .update, .aliveCounts]] ∧
    outBuffers (addPlayer g).2.2 =
      [[.joined], [.mapDesc, .update, .aliveCounts]] ∧
    (addPlayer g).1.objects = g.objects ++ [g.nextObjectId] ∧
    (addPlayer g).1.newPlayers = g.newPlayers ++ [g.nextObjectId] ∧
    (addPlayer g).1.aliveCount = g.aliveCount + 1 :=
  ⟨rfl, rfl, rfl, rfl, rfl⟩

/-- C9 counterexample: on the same layer, `shouldCollide` queried from
the player fixture against an obstacle answers true, but queried from the
obstacle fixture against the player it answers false — the predicate does
not yield the same answer regardless of which fixture is queried. -/
theorem shouldCollide_not_symmetric :
    shouldCollide playerFixW obstacleFixW = true ∧
    shouldCollide obstacleFixW playerFixW = false := by
  decide

/-- C9 (amended). For fixtures whose `isBullet` flag agrees with their
kind, `shouldCollide` implements a directional matrix: different layers
never collide; queried from a player it allows exactly obstacles and
projectiles; queried from a projectile exactly players, obstacles and
projectiles (never loot); queried from loot exactly obstacles and loot;
queried from a plain obstacle it always answers false — so the predicate
is asymmetric. -/
theorem shouldCollide_matrix (a b : FixtureData)
    (ha : a.isBullet = (a.kind == .projectile))
    (hb : b.isBullet = (b.kind == .projectile)) :
    (a.layer ≠ b.layer → shouldCollide a b = false) ∧
    (a.layer = b.layer →
      shouldCollide a b =
        ((a.kind == OKind.player) &&
          ((b.kind == OKind.obstacle) || (b.kind == OKind.projectile)) ||
         (a.kind == OKind.projectile) &&
          ((b.kind == OKind.player) || (b.kind == OKind.obstacle) ||
            (b.kind == OKind.projectile)) ||
         (a.kind == OKind.loot) &&
          ((b.kind == OKind.obstacle) || (b.kind == OKind.loot)))) := by
  obtain ⟨la, ka, ba⟩ := a
  obtain ⟨lb, kb, bb⟩ := b
  simp only at ha hb
  subst ha hb
  constructor
  · intro hne
    simp [shouldCollide, hne]
  · intro heq
    subst heq
    cases ka <;> cases kb <;> simp [shouldCollide] <;> decide

lemma scanStep_ne_none (attackerId : Nat) (hitPos : Int × Int) (radius : Int)
    (acc : Option (Int × MeleeTarget)) (o : MeleeTarget) (h : acc ≠ none) :
    scanStep attackerId hitPos radius acc o ≠ none := by
  simp only [scanStep]
  repeat' split
  all_goals simp_all

lemma scanStep_cases (attackerId : Nat) (hitPos : Int × Int) (radius : Int)
    (acc : Option (Int × MeleeTarget)) (o : MeleeTarget) :
    (scanStep attackerId hitPos radius acc o = acc ∧
      (eligibleTarget attackerId o = true → collidesAt hitPos radius o = true →
        ∃ m x, acc = some (m, x) ∧ m ≤ distAt hitPos radius o)) ∨
    (scanStep attackerId hitPos radius acc o =
        some (distAt hitPos radius o, o) ∧
      eligibleTarget attackerId o = true ∧ collidesAt hitPos radius o = true ∧
      (∀ m x, acc = some (m, x) → distAt hitPos radius o < m)) := by
  by_cases he : eligibleTarget attackerId o = true
  · by_cases hc : collidesAt hitPos radius o = true
    · simp only [collidesAt] at hc
      rcases acc with _ | ⟨m, x⟩
      · right
        refine ⟨?_, he, by simpa [collidesAt] using hc, ?_⟩
        · simp [scanStep, he, hc, distAt]
        · intro m x h
          cases h
      · by_cases hlt : distAt hitPos radius o < m
        · right
          refine ⟨?_, he, by simpa [collidesAt] using hc, ?_⟩
          · simp only [distAt] at hlt
            simp [scanStep, he, hc, hlt, distAt]
          · intro m' x' h
            simp only [Option.some.injEq, Prod.mk.injEq] at h
            obtain ⟨rfl, rfl⟩ := h
            exact hlt
        · left
          refine ⟨?_, ?_⟩
          · simp only [distAt] at hlt
            simp [scanStep, he, hc, hlt]
          · intro _ _
            exact ⟨m, x, rfl, by omega⟩
    · have hc' : (targetRecord hitPos radius o).collided = false := by
        simpa [collidesAt] using hc
      left
      refine ⟨?_, ?_⟩
      · simp [scanStep, he, hc']
      · intro _ hcoll
        exact absurd hcoll hc
  · left
    refine ⟨by simp [scanStep, he], fun helig _ => absurd helig he⟩

lemma scan_foldl_spec (attackerId : Nat) (hitPos : Int × Int) (radius : Int)
    (os : List MeleeTarget) :
    ∀ acc : Option (Int × MeleeTarget),
      (∀ d o, os.foldl (scanStep attackerId hitPos radius) acc = some (d, o) →
        (acc = some (d, o) ∨
          (o ∈ os ∧ eligibleTarget attackerId o = true ∧
            collidesAt hitPos radius o = true ∧ d = distAt hitPos radius o)) ∧
        (∀ o' ∈ os, eligibleTarget attackerId o' = true →
          collidesAt hitPos radius o' = true → d ≤ distAt hitPos radius o') ∧
        (∀ d₀ o₀, acc = some (d₀, o₀) → d ≤ d₀)) ∧
      (((∃ w ∈ os, eligibleTarget attackerId w = true ∧
          collidesAt hitPos radius w = true) ∨ acc ≠ none) →
        os.foldl (scanStep attackerId hitPos radius) acc ≠ none) := by
  induction os with
  | nil =>
      intro acc
      constructor
      · intro d o h
        simp only [List.foldl_nil] at h
        refine ⟨Or.inl h, ?_, ?_⟩
        · intro o' ho'
          exact absurd ho' (List.not_mem_nil o')
        · intro d₀ o₀ h₀
          rw [h] at h₀
          simp only [Option.some.injEq, Prod.mk.injEq] at h₀
          obtain ⟨rfl, rfl⟩ := h₀
          exact le_refl d
      · intro hex
        rcases hex with ⟨w, hw, _⟩ | hacc
        · exact absurd hw (List.not_mem_nil w)
        · simpa using hacc
  | cons o os ih =>
      intro acc
      have hfold : (o :: os).foldl (scanStep attackerId hitPos radius) acc
          = os.foldl (scanStep attackerId hitPos radius)
              (scanStep attackerId hitPos radius acc o) := rfl
      constructor
      · intro d o₁ h
        rw [hfold] at h
        obtain ⟨hA, hB, hC⟩ :=
          (ih (scanStep attackerId hitPos radius acc o)).1 d o₁ h
        rcases scanStep_cases attackerId hitPos radius acc o with
          ⟨hstep, hmin⟩ | ⟨hstep, he, hc, hbeat⟩
        · rw [hstep] at hA hC
          refine ⟨?_, ?_, hC⟩
          · rcases hA with hA | ⟨hmem, hrest⟩
            · exact Or.inl hA
            · exact Or.inr ⟨List.mem_cons_of_mem o hmem, hrest⟩
          · intro o' ho' he' hc'
            rcases List.mem_cons.mp ho' with rfl | ho'
            · obtain ⟨m, x, hacc, hle⟩ := hmin he' hc'
              exact le_trans (hC m x hacc) hle
            · exact hB o' ho' he' hc'
        · rw [hstep] at hA hC
          refine ⟨?_, ?_, ?_⟩
          · rcases hA with hA | ⟨hmem, hrest⟩
            · simp only [Option.some.injEq, Prod.mk.injEq] at hA
              obtain ⟨rfl, rfl⟩ := hA
              exact Or.inr ⟨List.mem_cons_self o os, he, hc, rfl⟩
            · exact Or.inr ⟨List.mem_cons_of_mem o hmem, hrest⟩
          · intro o' ho' he' hc'
            rcases List.mem_cons.mp ho' with rfl | ho'
            · exact hC (distAt hitPos radius o') o' rfl
            · exact hB o' ho' he' hc'
          · intro d₀ o₀ hacc
            exact le_trans (hC (distAt hitPos radius o) o rfl)
              (le_of_lt (hbeat d₀ o₀ hacc))
      · intro hex
        rw [hfold]
        apply (ih (scanStep attackerId hitPos radius acc o)).2
        rcases hex with ⟨w, hw, hwe, hwc⟩ | hacc
        · rcases List.mem_cons.mp hw with rfl | hw
          · rcases scanStep_cases attackerId hitPos radius acc w with
              ⟨hstep, hmin⟩ | ⟨hstep, _, _, _⟩
            · obtain ⟨m, x, hacc, _⟩ := hmin hwe hwc
              right
              rw [hstep, hacc]
              simp
            · right
              rw [hstep]
              simp
          · exact Or.inl ⟨w, hw, hwe, hwc⟩
        · exact Or.inr (scanStep_ne_none attackerId hitPos radius acc o hacc)

lemma animTicks_fire_active (gF gP : List Nat) (i : Nat) (k : Nat) (hk : k ≤ 7) :
    (animTicks k (animStep (gF, gP, (⟨i, true, 1, 1, 0, false⟩ : AnimP)))).2.2.animActive
      = true := by
  interval_cases k <;> norm_num [animTicks, animStep]

lemma animTicks_fire_clear (gF gP : List Nat) (i : Nat) :
    animTicks 8 (animStep (gF, gP, (⟨i, true, 1, 1, 0, false⟩ : AnimP))) =
      (gF ++ [i], gP, ⟨i, false, 0, 0, -1, false⟩) := by
  norm_num [animTicks, animStep]

/-- C8. When a player holding a melee weapon fires with cooldown elapsed
and some visible object is an eligible (has body, not dead, not the
attacker, damageable) colliding target: the scan returns a single closest
target — eligible, colliding within the attack radius under the
shape-appropriate distance test, of minimal distance among all eligible
colliding visible objects — which is damaged by the fixed melee amount 24
and interacted with exactly when it is interactable; the attacker enters
animating state, is marked fully dirty, and the animation stays active
through the 7 ticks after the firing tick's own animation step,
auto-clearing on the 8th with the attacker pushed onto the session
`fullDirtyObjects` again. -/
theorem melee_fire_closest_target_and_animation
    (gFull gPartial : List Nat) (p : AnimP) (hitPos : Int × Int) (radius : Int)
    (objects : List MeleeTarget)
    (hanim : p.animActive = false) (hmov : p.moving = false)
    (o₀ : MeleeTarget) (ho₀ : o₀ ∈ objects)
    (helig : eligibleTarget p.id o₀ = true)
    (hcoll : collidesAt hitPos radius o₀ = true)
    (res : List Nat × AnimP × MeleeEffects)
    (hres : res = meleeFireStep gFull p hitPos radius objects) :
    (∃ d o, meleeScan p.id hitPos radius objects = some (d, o) ∧
      o ∈ objects ∧ eligibleTarget p.id o = true ∧
      collidesAt hitPos radius o = true ∧ d = distAt hitPos radius o ∧
      (∀ o' ∈ objects, eligibleTarget p.id o' = true →
        collidesAt hitPos radius o' = true → d ≤ distAt hitPos radius o') ∧
      res.2.2.damageCalls = [(o.id, 24)] ∧
      res.2.2.interactCalls = (if o.interactable then [o.id] else [])) ∧
    res.1 = gFull ++ [p.id] ∧
    res.2.1.animActive = true ∧
    res.2.1.animTime = 0 ∧
    (∀ k, k ≤ 7 →
      (animTicks k (animStep (res.1, gPartial, res.2.1))).2.2.animActive = true) ∧
    (animTicks 8 (animStep (res.1, gPartial, res.2.1))).2.2.animActive = false ∧
    (animTicks 8 (animStep (res.1, gPartial, res.2.1))).2.2.animTime = -1 ∧
    (animTicks 8 (animStep (res.1, gPartial, res.2.1))).1 = res.1 ++ [p.id] := by
  subst hres
  obtain ⟨pid, pact, pty, psq, ptime, pmov⟩ := p
  simp only at hanim hmov helig
  subst hanim hmov
  have hstart : startPunchAnim gFull (⟨pid, false, pty, psq, ptime, false⟩ : AnimP) =
      (gFull ++ [pid], ⟨pid, true, 1, 1, 0, false⟩) := by
    simp [startPunchAnim]
  have hres1 : meleeFireStep gFull (⟨pid, false, pty, psq, ptime, false⟩ : AnimP)
      hitPos radius objects =
      (gFull ++ [pid], (⟨pid, true, 1, 1, 0, false⟩ : AnimP),
        meleeHit pid hitPos radius objects) := by
    simp [meleeFireStep, hstart]
  rw [hres1]
  dsimp only
  refine ⟨?_, rfl, rfl, rfl, ?_, ?_, ?_, ?_⟩
  · have hne := (scan_foldl_spec pid hitPos radius objects none).2
      (Or.inl ⟨o₀, ho₀, helig, hcoll⟩)
    rcases hsc : meleeScan pid hitPos radius objects with _ | ⟨d, o⟩
    · exact absurd (by simpa [meleeScan] using hsc) hne
    · obtain ⟨hA, hB, _⟩ := (scan_foldl_spec pid hitPos radius objects none).1 d o
        (by simpa [meleeScan] using hsc)
      rcases hA with hA | ⟨hmem, he, hc, hd⟩
      · cases hA
      · refine ⟨d, o, rfl, hmem, he, hc, hd, hB, ?_, ?_⟩
        · simp [meleeHit, hsc]
        · simp [meleeHit, hsc]
  · intro k hk
    exact animTicks_fire_active (gFull ++ [pid]) gPartial pid k hk
  · rw [animTicks_fire_clear (gFull ++ [pid]) gPartial pid]
  · rw [animTicks_fire_clear (gFull ++ [pid]) gPartial pid]
  · rw [animTicks_fire_clear (gFull ++ [pid]) gPartial pid]

/-- Witness for C8: one attacker, one eligible colliding enemy player —
the enemy is selected, damaged by 24, and the attacker's animation runs
for 8 ticks after the firing tick before auto-clearing. -/
theorem melee_fire_closest_target_and_animation_witness :
    (∃ d o, meleeScan attackerW.id (0, 0) 1 [targetW] = some (d, o) ∧
      o ∈ [targetW] ∧ eligibleTarget attackerW.id o = true ∧
      collidesAt (0, 0) 1 o = true ∧ d = distAt (0, 0) 1 o ∧
      (∀ o' ∈ [targetW], eligibleTarget attackerW.id o' = true →
        collidesAt (0, 0) 1 o' = true → d ≤ distAt (0, 0) 1 o') ∧
      (meleeFireStep [] attackerW (0, 0) 1 [targetW]).2.2.damageCalls
        = [(o.id, 24)] ∧
      (meleeFireStep [] attackerW (0, 0) 1 [targetW]).2.2.interactCalls
        = (if o.interactable then [o.id] else [])) ∧
    (meleeFireStep [] attackerW (0, 0) 1 [targetW]).1 = [] ++ [attackerW.id] ∧
    (meleeFireStep [] attackerW (0, 0) 1 [targetW]).2.1.animActive = true ∧
    (meleeFireStep [] attackerW (0, 0) 1 [targetW]).2.1.animTime = 0 ∧
    (∀ k, k ≤ 7 →
      (animTicks k (animStep ((meleeFireStep [] attackerW (0, 0) 1 [targetW]).1, [],
        (meleeFireStep [] attackerW (0, 0) 1 [targetW]).2.1))).2.2.animActive
        = true) ∧
    (animTicks 8 (animStep ((meleeFireStep [] attackerW (0, 0) 1 [targetW]).1, [],
      (meleeFireStep [] attackerW (0, 0) 1 [targetW]).2.1))).2.2.animActive
      = false ∧
    (animTicks 8 (animStep ((meleeFireStep [] attackerW (0, 0) 1 [targetW]).1, [],
      (meleeFireStep [] attackerW (0, 0) 1 [targetW]).2.1))).2.2.animTime = -1 ∧
    (animTicks 8 (animStep ((meleeFireStep [] attackerW (0, 0) 1 [targetW]).1, [],
      (meleeFireStep [] attackerW (0, 0) 1 [targetW]).2.1))).1
      = (meleeFireStep [] attackerW (0, 0) 1 [targetW]).1 ++ [attackerW.id] :=
  melee_fire_closest_target_and_animation [] [] attackerW (0, 0) 1 [targetW]
    rfl rfl targetW (by decide) (by decide) (by decide)
    (meleeFireStep [] attackerW (0, 0) 1 [targetW]) rfl

/-- Witness for C9: a player fixture queried against a projectile fixture
on the same layer follows the matrix. -/
theorem shouldCollide_matrix_witness :
    shouldCollide playerFixW bulletFixW =
      ((playerFixW.kind == OKind.player) &&
        ((bulletFixW.kind == OKind.obstacle) || (bulletFixW.kind == OKind.projectile)) ||
       (playerFixW.kind == OKind.projectile) &&
        ((bulletFixW.kind == OKind.player) || (bulletFixW.kind == OKind.obstacle) ||
          (bulletFixW.kind == OKind.projectile)) ||
       (playerFixW.kind == OKind.loot) &&
        ((bulletFixW.kind == OKind.obstacle) || (bulletFixW.kind == OKind.loot))) :=
  (shouldCollide_matrix playerFixW bulletFixW rfl rfl).2 rfl

end SR
